import Mathlib

/-
Verification of the metric-extraction and comparison core of the
F1 driver-style analyzer (src/app.py).

Modelling conventions:
* A pandas float scalar is `PFloat`: NaN, +inf, -inf, or an exact rational.
  IEEE arithmetic on these exact values is modelled by the `PFloat`
  operations below (NaN propagates, comparisons with NaN are false,
  division by zero yields a signed infinity, 0/0 yields NaN).
* pandas `Series.diff()` puts NaN at index 0 (`diffQ`, and `diffZ` for the
  integer gear column, where the leading entry is `none`).
* pandas `Series.mean()` / `Series.std()` skip NaN entries and use
  Bessel's correction (ddof = 1) for `std`; `std` of fewer than two
  non-NaN values is NaN (`pmean`, `pvar`, `pstd`).
* `std` takes a real square root, so metrics built on it land in
  `RFloat`, the same scalar type with a real payload (`psqrt`, `toR`).
* Telemetry rows carry the columns used by src/app.py: Time (seconds,
  from Timedelta.total_seconds), Speed (km/h), Throttle (percent),
  Brake (boolean; `Brake > 0` on a boolean series is the identity),
  nGear (integer).
-/

set_option maxRecDepth 4000

/-- A pandas/numpy float scalar with an exact rational payload. -/
inductive PFloat where
  | nan : PFloat
  | pinf : PFloat
  | ninf : PFloat
  | val (x : ℚ) : PFloat
deriving DecidableEq

/-- IEEE negation. -/
def PFloat.neg : PFloat → PFloat
  | .nan => .nan
  | .pinf => .ninf
  | .ninf => .pinf
  | .val x => .val (-x)

/-- IEEE addition: NaN propagates, opposite infinities give NaN. -/
def PFloat.add : PFloat → PFloat → PFloat
  | .nan, _ => .nan
  | _, .nan => .nan
  | .pinf, .ninf => .nan
  | .pinf, _ => .pinf
  | .ninf, .pinf => .nan
  | .ninf, _ => .ninf
  | .val _, .pinf => .pinf
  | .val _, .ninf => .ninf
  | .val x, .val y => .val (x + y)

/-- IEEE subtraction. -/
def PFloat.sub (a b : PFloat) : PFloat := a.add b.neg

/-- IEEE multiplication: NaN propagates, infinity times zero is NaN. -/
def PFloat.mul : PFloat → PFloat → PFloat
  | .nan, _ => .nan
  | _, .nan => .nan
  | .pinf, .pinf => .pinf
  | .pinf, .ninf => .ninf
  | .ninf, .pinf => .ninf
  | .ninf, .ninf => .pinf
  | .pinf, .val y => if y = 0 then .nan else if 0 < y then .pinf else .ninf
  | .ninf, .val y => if y = 0 then .nan else if 0 < y then .ninf else .pinf
  | .val x, .pinf => if x = 0 then .nan else if 0 < x then .pinf else .ninf
  | .val x, .ninf => if x = 0 then .nan else if 0 < x then .ninf else .pinf
  | .val x, .val y => .val (x * y)

/-- IEEE division: x/0 is a signed infinity for x nonzero, 0/0 is NaN,
x/inf is zero, inf/inf is NaN. -/
def PFloat.div : PFloat → PFloat → PFloat
  | .nan, _ => .nan
  | _, .nan => .nan
  | .pinf, .pinf => .nan
  | .pinf, .ninf => .nan
  | .ninf, .pinf => .nan
  | .ninf, .ninf => .nan
  | .pinf, .val y => if y < 0 then .ninf else .pinf
  | .ninf, .val y => if y < 0 then .pinf else .ninf
  | .val _, .pinf => .val 0
  | .val _, .ninf => .val 0
  | .val x, .val y =>
      if y = 0 then (if x = 0 then .nan else if 0 < x then .pinf else .ninf)
      else .val (x / y)

/-- IEEE absolute value. -/
def PFloat.abs : PFloat → PFloat
  | .nan => .nan
  | .pinf => .pinf
  | .ninf => .pinf
  | .val x => .val |x|

/-- IEEE strict less-than as the elementwise pandas comparison:
any comparison against NaN is false. -/
def PFloat.ltb : PFloat → PFloat → Bool
  | .nan, _ => false
  | _, .nan => false
  | .ninf, .ninf => false
  | .ninf, _ => true
  | _, .ninf => false
  | .pinf, _ => false
  | .val _, .pinf => true
  | .val x, .val y => decide (x < y)

/-- NaN test. -/
def PFloat.isNan : PFloat → Bool
  | .nan => true
  | _ => false

/-- skipna: drop the NaN entries of a series, as pandas mean/std do. -/
def dropna (l : List PFloat) : List PFloat := l.filter (fun x => !x.isNan)

/-- pandas Series.sum over the kept entries. -/
def psum (l : List PFloat) : PFloat := l.foldl PFloat.add (PFloat.val 0)

/-- pandas Series.mean: skip NaNs; the mean of an empty series is NaN. -/
def pmean (l : List PFloat) : PFloat :=
  let xs := dropna l
  if xs.length = 0 then PFloat.nan
  else (psum xs).div (PFloat.val (xs.length : ℚ))

/-- pandas Series.var with ddof = 1 (Bessel) and skipna: NaN when fewer
than two non-NaN entries remain. -/
def pvar (l : List PFloat) : PFloat :=
  let xs := dropna l
  if xs.length < 2 then PFloat.nan
  else
    let m := pmean xs
    (psum (xs.map (fun x => (x.sub m).mul (x.sub m)))).div
      (PFloat.val ((xs.length - 1 : ℕ) : ℚ))

/-- A pandas float scalar whose payload is a real number, for results of
`std` (which takes a square root). -/
inductive RFloat where
  | nan : RFloat
  | pinf : RFloat
  | ninf : RFloat
  | val (x : ℝ) : RFloat

/-- Exact rational scalars embed into real scalars. -/
noncomputable def toR : PFloat → RFloat
  | .nan => .nan
  | .pinf => .pinf
  | .ninf => .ninf
  | .val q => .val (q : ℝ)

/-- IEEE square root of an exact scalar: NaN on NaN and on negatives. -/
noncomputable def psqrt : PFloat → RFloat
  | .nan => .nan
  | .pinf => .pinf
  | .ninf => .nan
  | .val q => if q < 0 then .nan else .val (Real.sqrt (q : ℝ))

/-- pandas Series.std = square root of the ddof-1 variance. -/
noncomputable def pstd (l : List PFloat) : RFloat := psqrt (pvar l)

/-- IEEE negation on real scalars. -/
def RFloat.neg : RFloat → RFloat
  | .nan => .nan
  | .pinf => .ninf
  | .ninf => .pinf
  | .val x => .val (-x)

/-- IEEE subtraction on real scalars. -/
noncomputable def RFloat.sub : RFloat → RFloat → RFloat
  | .nan, _ => .nan
  | _, .nan => .nan
  | .pinf, .pinf => .nan
  | .pinf, _ => .pinf
  | .ninf, .ninf => .nan
  | .ninf, _ => .ninf
  | .val _, .pinf => .ninf
  | .val _, .ninf => .pinf
  | .val x, .val y => .val (x - y)

/-- IEEE strict less-than on real scalars, as a proposition; anything
compared with NaN is false. -/
def RFloat.ltP : RFloat → RFloat → Prop
  | _, .nan => False
  | .nan, _ => False
  | .ninf, .ninf => False
  | .ninf, _ => True
  | _, .ninf => False
  | .pinf, _ => False
  | .val _, .pinf => True
  | .val x, .val y => x < y

/-- One telemetry reading, with the columns src/app.py uses. -/
structure TelemetryRow where
  time : ℚ
  speed : ℚ
  throttle : ℚ
  brake : Bool
  nGear : ℤ
deriving DecidableEq

/-- The telemetry of one lap: readings ordered by sampling instant. -/
abbrev Telemetry := List TelemetryRow

/-- Differences of adjacent entries, newer minus older. -/
def adjDiffs (l : List ℚ) : List ℚ := List.zipWith (fun a b => b - a) l l.tail

/-- pandas Series.diff on a float column: NaN at index 0, then adjacent
differences. -/
def diffQ (l : List ℚ) : List PFloat :=
  match l with
  | [] => []
  | _ :: _ => PFloat.nan :: (adjDiffs l).map PFloat.val

/-- pandas Series.diff on the integer gear column: `none` is the leading
NaN. -/
def diffZ (l : List ℤ) : List (Option ℤ) :=
  match l with
  | [] => []
  | _ :: _ => none :: List.zipWith (fun a b => some (b - a)) l l.tail

/-- Elementwise `!= 0` on a diffed integer column: NaN (`none`) compares
not-equal, exactly as in pandas. -/
def neZeroOpt : Option ℤ → Bool
  | none => true
  | some z => z != 0

/-- pandas boolean-mask selection (`series[mask]`, `df.loc[mask, col]`). -/
def select (mask : List Bool) (l : List α) : List α :=
  ((List.zip mask l).filter (fun p => p.1)).map (fun p => p.2)

/-- calculate_braking_aggressiveness (src/app.py lines 84-103): mean
deceleration in G over instants where the brake is applied and speed is
decreasing. -/
def calculate_braking_aggressiveness (telemetry : Telemetry) : PFloat :=
  let speeds := telemetry.map (fun r => r.speed)
  let braking_mask :=
    List.zipWith (fun (b : Bool) d => b && PFloat.ltb d (PFloat.val 0))
      (telemetry.map (fun r => r.brake)) (diffQ speeds)
  if !braking_mask.any id then PFloat.val 0
  else
    let speed_ms := speeds.map (fun s => s / (3.6 : ℚ))
    let acceleration :=
      List.zipWith PFloat.div (diffQ speed_ms) (diffQ (telemetry.map (fun r => r.time)))
    let braking_decel := (select braking_mask acceleration).map PFloat.neg
    let braking_g_force := braking_decel.map (fun x => x.div (PFloat.val (9.81 : ℚ)))
    pmean braking_g_force

/-- calculate_throttle_smoothness (src/app.py lines 105-111): std of the
absolute first differences of throttle. -/
noncomputable def calculate_throttle_smoothness (telemetry : Telemetry) : RFloat :=
  pstd ((diffQ (telemetry.map (fun r => r.throttle))).map PFloat.abs)

/-- calculate_cornering_consistency (src/app.py lines 113-125): std of
speed over instants with throttle below 50 and absolute speed change
above 1. -/
noncomputable def calculate_cornering_consistency (telemetry : Telemetry) : RFloat :=
  let corner_mask :=
    List.zipWith (fun (th : ℚ) d => decide (th < 50) && PFloat.ltb (PFloat.val 1) (PFloat.abs d))
      (telemetry.map (fun r => r.throttle)) (diffQ (telemetry.map (fun r => r.speed)))
  if !corner_mask.any id then RFloat.val 0
  else pstd ((select corner_mask (telemetry.map (fun r => r.speed))).map PFloat.val)

/-- calculate_gear_shift_frequency (src/app.py lines 127-137): count of
`diff() != 0` instants over elapsed minutes.  Indexing the Time column
with iloc raises IndexError on an empty frame; the bare except maps that
to 0.0, which the empty match arm models. -/
def calculate_gear_shift_frequency (telemetry : Telemetry) : PFloat :=
  let gear_changes := (diffZ (telemetry.map (fun r => r.nGear))).countP neZeroOpt
  match telemetry.map (fun r => r.time) with
  | [] => PFloat.val 0
  | t0 :: ts =>
    let total_time_minutes := (ts.getLastD t0 - t0) / 60
    if 0 < total_time_minutes then PFloat.val ((gear_changes : ℚ) / total_time_minutes)
    else PFloat.val 0

/-- One lap record as returned by the telemetry provider: its lap time,
whether the record itself is an empty frame (`fastest_lap.empty`), and
the telemetry `get_telemetry()` would attach to it. -/
structure Lap where
  lapTime : ℚ
  recordEmpty : Bool
  telemetry : Telemetry

/-- pick_fastest (pandas idxmin semantics): the lap with minimal lap
time, the earliest one on ties. -/
def pick_fastest (l0 : Lap) (rest : List Lap) : Lap :=
  rest.foldl (fun best lp => if lp.lapTime < best.lapTime then lp else best) l0

/-- The Python-level result of get_driver_telemetry: either the bare
`None` of lines 71/76 (a single value, not a tuple) or the
`(telemetry, fastest_lap)` pair of line 79.  The except branch of
line 82 (provider faults) is outside this model. -/
inductive PyGetTel where
  | bareNone : PyGetTel
  | pair (tel : Telemetry) (lap : Lap) : PyGetTel

/-- get_driver_telemetry (src/app.py lines 66-82) on the laps the
provider returns for the requested driver. -/
def get_driver_telemetry (laps : List Lap) : PyGetTel :=
  match laps with
  | [] => PyGetTel.bareNone
  | l0 :: rest =>
    let fastest_lap := pick_fastest l0 rest
    if fastest_lap.recordEmpty then PyGetTel.bareNone
    else PyGetTel.pair fastest_lap.telemetry fastest_lap

/-- The four-metric style profile assembled by analyze_driver_style. -/
structure StyleMetrics where
  braking_aggressiveness : RFloat
  throttle_smoothness : RFloat
  cornering_consistency : RFloat
  gear_shift_frequency : RFloat

/-- The Python-level outcome of analyze_driver_style: the tuple
unpacking `telemetry, lap = get_driver_telemetry(...)` at line 141
raises TypeError when the callee returned a bare `None`. -/
inductive PyAnalyze where
  | raisesTypeError : PyAnalyze
  | returnsNone : PyAnalyze
  | profile (m : StyleMetrics) (lap : Lap) : PyAnalyze

/-- analyze_driver_style (src/app.py lines 139-153). -/
noncomputable def analyze_driver_style (laps : List Lap) : PyAnalyze :=
  match get_driver_telemetry laps with
  | PyGetTel.bareNone => PyAnalyze.raisesTypeError
  | PyGetTel.pair tel lap =>
    if tel.isEmpty then PyAnalyze.returnsNone
    else
      PyAnalyze.profile
        ⟨toR (calculate_braking_aggressiveness tel),
         calculate_throttle_smoothness tel,
         calculate_cornering_consistency tel,
         toR (calculate_gear_shift_frequency tel)⟩ lap

/-- The four style metrics by name. -/
inductive Metric where
  | braking_aggressiveness : Metric
  | throttle_smoothness : Metric
  | cornering_consistency : Metric
  | gear_shift_frequency : Metric
deriving DecidableEq

/-- The delta_color argument of each st.metric call in main. -/
inductive DeltaColor where
  | normal : DeltaColor
  | inverse : DeltaColor
deriving DecidableEq

/-- Per-metric delta_color, read off the four st.metric calls of
src/app.py lines 311-343: throttle smoothness (line 324) and cornering
consistency (line 333) pass delta_color="inverse", the other two use
the default "normal". -/
def metric_delta_color : Metric → DeltaColor
  | .braking_aggressiveness => .normal
  | .throttle_smoothness => .inverse
  | .cornering_consistency => .inverse
  | .gear_shift_frequency => .normal

/-- Which driver a metric marks as leading. -/
inductive Direction where
  | higherLeads : Direction
  | lowerLeads : Direction
deriving DecidableEq

/-- Streamlit renders a positive delta favorably under "normal" and a
negative delta favorably under "inverse", so "normal" means the higher
value leads and "inverse" means the lower value leads. -/
def direction_of_color : DeltaColor → Direction
  | .normal => .higherLeads
  | .inverse => .lowerLeads

/-- The direction convention the display encodes for each metric. -/
def metric_direction (m : Metric) : Direction :=
  direction_of_color (metric_delta_color m)

/-- The derived comparison facts main renders for two profiles: the four
driver1-minus-driver2 deltas (lines 311-343) and the two textual leader
annotations (lines 363-371). -/
structure ComparisonView where
  braking_delta : RFloat
  throttle_delta : RFloat
  cornering_delta : RFloat
  gear_delta : RFloat
  braking_leader : String
  smooth_leader : String

open scoped Classical in
/-- The comparison step of main (src/app.py lines 309-343 and 363-371):
deltas are driver1's value minus driver2's value; braking_leader is
driver1 exactly when its braking aggressiveness is strictly greater,
else driver2; smooth_leader is driver1 exactly when its throttle
smoothness is strictly smaller, else driver2. -/
noncomputable def compare_profiles (driver1 driver2 : String)
    (m1 m2 : StyleMetrics) : ComparisonView :=
  ⟨m1.braking_aggressiveness.sub m2.braking_aggressiveness,
   m1.throttle_smoothness.sub m2.throttle_smoothness,
   m1.cornering_consistency.sub m2.cornering_consistency,
   m1.gear_shift_frequency.sub m2.gear_shift_frequency,
   if RFloat.ltP m2.braking_aggressiveness m1.braking_aggressiveness then driver1 else driver2,
   if RFloat.ltP m1.throttle_smoothness m2.throttle_smoothness then driver1 else driver2⟩

/-- The absolute first differences of the throttle column, the series
whose dispersion throttle smoothness reports (spec section 4.1). -/
def throttleAbsDiffs (telemetry : Telemetry) : List ℚ :=
  (adjDiffs (telemetry.map (fun r => r.throttle))).map (fun d => |d|)

/-- Modelled from the spec: the sample variance with Bessel's correction
(divide by N-1) of a rational series, whose square root is the sample
standard deviation the spec prescribes for throttle smoothness. -/
def sampleVarQ (l : List ℚ) : ℚ :=
  ((l.map (fun x => (x - l.sum / l.length) * (x - l.sum / l.length))).sum) /
    ((l.length : ℚ) - 1)

/-- Reading a column of the telemetry frame: pandas column indexing
allocates a new Series and leaves the frame as it was.  The frame is
threaded explicitly so that the absence of mutation in the metric
functions is a provable statement rather than a convention. -/
def readCol (f : TelemetryRow → α) (s : Telemetry) : List α × Telemetry :=
  (s.map f, s)

/-- calculate_braking_aggressiveness with the telemetry frame threaded
through every frame access, following src/app.py lines 84-103 operation
by operation (diff, comparison, masking, mean all return fresh Series). -/
def calculate_braking_aggressiveness_st (s0 : Telemetry) : PFloat × Telemetry :=
  let p1 := readCol (fun r => r.brake) s0
  let p2 := readCol (fun r => r.speed) p1.2
  let braking_mask :=
    List.zipWith (fun (b : Bool) d => b && PFloat.ltb d (PFloat.val 0)) p1.1 (diffQ p2.1)
  if !braking_mask.any id then (PFloat.val 0, p2.2)
  else
    let p3 := readCol (fun r => r.time) p2.2
    let speed_ms := p2.1.map (fun s => s / (3.6 : ℚ))
    let acceleration := List.zipWith PFloat.div (diffQ speed_ms) (diffQ p3.1)
    let braking_decel := (select braking_mask acceleration).map PFloat.neg
    let braking_g_force := braking_decel.map (fun x => x.div (PFloat.val (9.81 : ℚ)))
    (pmean braking_g_force, p3.2)

/-- calculate_throttle_smoothness with the frame threaded through. -/
noncomputable def calculate_throttle_smoothness_st (s0 : Telemetry) : RFloat × Telemetry :=
  let p1 := readCol (fun r => r.throttle) s0
  (pstd ((diffQ p1.1).map PFloat.abs), p1.2)

/-- calculate_cornering_consistency with the frame threaded through. -/
noncomputable def calculate_cornering_consistency_st (s0 : Telemetry) : RFloat × Telemetry :=
  let p1 := readCol (fun r => r.throttle) s0
  let p2 := readCol (fun r => r.speed) p1.2
  let corner_mask :=
    List.zipWith (fun (th : ℚ) d => decide (th < 50) && PFloat.ltb (PFloat.val 1) (PFloat.abs d))
      p1.1 (diffQ p2.1)
  if !corner_mask.any id then (RFloat.val 0, p2.2)
  else
    let p3 := readCol (fun r => r.speed) p2.2
    (pstd ((select corner_mask p3.1).map PFloat.val), p3.2)

/-- calculate_gear_shift_frequency with the frame threaded through. -/
def calculate_gear_shift_frequency_st (s0 : Telemetry) : PFloat × Telemetry :=
  let p1 := readCol (fun r => r.nGear) s0
  let gear_changes := (diffZ p1.1).countP neZeroOpt
  let p2 := readCol (fun r => r.time) p1.2
  match p2.1 with
  | [] => (PFloat.val 0, p2.2)
  | t0 :: ts =>
    let total_time_minutes := (ts.getLastD t0 - t0) / 60
    if 0 < total_time_minutes then (PFloat.val ((gear_changes : ℚ) / total_time_minutes), p2.2)
    else (PFloat.val 0, p2.2)

/-- The 5-sample synthetic lap of the spec scenario: times 0, 0.2, 0.4,
0.6, 0.8 seconds; speed 100, 95, 90, 92, 92 km/h; brake on for the first
three samples; throttle 0, 0, 0, 50, 80; gear 3, 3, 3, 4, 4. -/
def tel4 : Telemetry :=
  [⟨0, 100, 0, true, 3⟩,
   ⟨1/5, 95, 0, true, 3⟩,
   ⟨2/5, 90, 0, true, 3⟩,
   ⟨3/5, 92, 50, false, 4⟩,
   ⟨4/5, 92, 80, false, 4⟩]

/-- A single telemetry reading, for the degenerate-input claims. -/
def rowOne : TelemetryRow := ⟨0, 120, 30, false, 5⟩

/-- A two-reading lap in constant gear spanning 60 seconds. -/
def rowC2a : TelemetryRow := ⟨0, 100, 20, false, 3⟩

/-- Second reading of the constant-gear lap. -/
def rowC2b : TelemetryRow := ⟨60, 110, 40, false, 3⟩

/-- A two-reading lap: its throttle difference series has one element. -/
def telTwo : Telemetry := [⟨0, 100, 0, false, 3⟩, ⟨1, 90, 10, false, 3⟩]

/-- Another two-reading lap, with exactly one cornering instant selected
by the cornering mask (throttle below 50, speed drop of 10). -/
def telOneCorner : Telemetry := [⟨0, 100, 5, false, 3⟩, ⟨1, 90, 5, false, 3⟩]

/-- A third two-reading lap for the totality analysis. -/
def telC8 : Telemetry := [⟨0, 50, 20, false, 2⟩, ⟨2, 60, 35, false, 2⟩]

/-- A driver lap whose fastest-lap record is an empty frame. -/
def lapEmptyRec : Lap := ⟨90, true, []⟩

/-- A driver lap whose record is fine but carries no telemetry. -/
def lapNoTel : Lap := ⟨90, false, []⟩

/-- A profile with every metric equal to 1.0. -/
noncomputable def mOnes : StyleMetrics :=
  ⟨RFloat.val 1, RFloat.val 1, RFloat.val 1, RFloat.val 1⟩

/-- A profile with every metric equal to 2.0. -/
noncomputable def mTwos : StyleMetrics :=
  ⟨RFloat.val 2, RFloat.val 2, RFloat.val 2, RFloat.val 2⟩

/-- A profile whose braking aggressiveness is NaN, as analyze_driver_style
produces for any lap of fewer than three readings (throttle smoothness
is then NaN as well). -/
noncomputable def mNaN : StyleMetrics :=
  ⟨RFloat.nan, RFloat.val 0, RFloat.val 0, RFloat.val 0⟩

@[simp] theorem PFloat.ltb_nan_left (x : PFloat) : PFloat.ltb PFloat.nan x = false := by
  cases x <;> rfl

@[simp] theorem PFloat.ltb_nan_right (x : PFloat) : PFloat.ltb x PFloat.nan = false := by
  cases x <;> rfl

@[simp] theorem PFloat.abs_nan : PFloat.abs PFloat.nan = PFloat.nan := rfl

/-- Division of two exact scalars, unfolded. -/
theorem PFloat.div_val_val (a b : ℚ) :
    PFloat.div (PFloat.val a) (PFloat.val b)
      = if b = 0 then (if a = 0 then PFloat.nan else if 0 < a then PFloat.pinf else PFloat.ninf)
        else PFloat.val (a / b) := rfl

/-- Folding IEEE addition over exact scalars is exact rational summation. -/
theorem psum_shift (q : ℚ) (l : List ℚ) :
    List.foldl PFloat.add (PFloat.val q) (l.map PFloat.val) = PFloat.val (q + l.sum) := by
  induction l generalizing q with
  | nil => simp
  | cons x xs ih => simp [PFloat.add, ih, add_assoc]

/-- Series.sum of an all-exact series is the rational sum. -/
theorem psum_map_val (l : List ℚ) : psum (l.map PFloat.val) = PFloat.val l.sum := by
  simpa using psum_shift 0 l

/-- skipna keeps every exact entry. -/
theorem dropna_map_val (l : List ℚ) : dropna (l.map PFloat.val) = l.map PFloat.val := by
  rw [dropna, List.filter_eq_self]
  intro a ha
  rcases List.mem_map.mp ha with ⟨x, _, rfl⟩
  rfl

/-- skipna drops a leading NaN. -/
theorem dropna_nan_cons (l : List PFloat) : dropna (PFloat.nan :: l) = dropna l := by
  simp [dropna, PFloat.isNan]

/-- Series.mean of a nonempty all-exact series is the rational mean. -/
theorem pmean_map_val (l : List ℚ) (h : l ≠ []) :
    pmean (l.map PFloat.val) = PFloat.val (l.sum / l.length) := by
  have hlen : l.length ≠ 0 := by simpa [List.length_eq_zero] using h
  simp only [pmean, dropna_map_val, List.length_map]
  rw [if_neg hlen, psum_map_val, PFloat.div_val_val,
    if_neg (by exact_mod_cast hlen)]

/-- Series.var (ddof 1) of a series that is a leading NaN followed by at
least two exact entries is the exact Bessel-corrected variance. -/
theorem pvar_nan_cons_vals (l : List ℚ) (h2 : 2 ≤ l.length) :
    pvar (PFloat.nan :: l.map PFloat.val)
      = PFloat.val
          (((l.map (fun x => (x - l.sum / l.length) * (x - l.sum / l.length))).sum) /
            ((l.length - 1 : ℕ) : ℚ)) := by
  have hne : l ≠ [] := by
    intro h
    subst h
    simp at h2
  simp only [pvar, dropna_nan_cons, dropna_map_val, List.length_map]
  rw [if_neg (by omega), pmean_map_val l hne]
  have hmap : (l.map PFloat.val).map
      (fun x => (x.sub (PFloat.val (l.sum / l.length))).mul (x.sub (PFloat.val (l.sum / l.length))))
      = (l.map (fun x => (x - l.sum / l.length) * (x - l.sum / l.length))).map PFloat.val := by
    rw [List.map_map, List.map_map]
    refine List.map_congr_left ?_
    intro x _
    simp [Function.comp, PFloat.sub, PFloat.neg, PFloat.add, PFloat.mul, sub_eq_add_neg]
  rw [hmap, psum_map_val, PFloat.div_val_val,
    if_neg (by exact_mod_cast (by omega : l.length - 1 ≠ 0))]

/-- C1 (amended): on telemetry with fewer than two readings, braking
aggressiveness, cornering consistency and gear-shift frequency all
return exactly 0.0, but throttle smoothness returns NaN, because
pandas std of fewer than two non-NaN values is NaN, which the bare
except does not intercept. -/
theorem metrics_short_input_values (t : Telemetry) (h : t.length < 2) :
    calculate_braking_aggressiveness t = PFloat.val 0 ∧
    calculate_cornering_consistency t = RFloat.val 0 ∧
    calculate_gear_shift_frequency t = PFloat.val 0 ∧
    calculate_throttle_smoothness t = RFloat.nan := by
  match t with
  | [] => exact ⟨rfl, rfl, rfl, rfl⟩
  | [r] =>
    refine ⟨?_, ?_, ?_, rfl⟩
    · simp [calculate_braking_aggressiveness, diffQ, adjDiffs]
    · simp [calculate_cornering_consistency, diffQ, adjDiffs]
    · simp [calculate_gear_shift_frequency, diffZ]
  | _ :: _ :: _ => exact absurd h (by simp)

/-- C1 counterexample: a one-reading telemetry makes throttle smoothness
NaN, not the 0.0 the claim asserts for all four metrics. -/
theorem throttle_smoothness_singleton_ne_zero :
    calculate_throttle_smoothness [rowOne] = RFloat.nan ∧ RFloat.nan ≠ RFloat.val 0 :=
  ⟨rfl, fun h => nomatch h⟩

/-- C1 witness: the amended statement evaluated on a concrete
one-reading telemetry. -/
theorem metrics_short_input_values_witness :
    ([rowOne] : Telemetry).length < 2 ∧ calculate_throttle_smoothness [rowOne] = RFloat.nan :=
  ⟨by decide, (metrics_short_input_values [rowOne] (by decide)).2.2.2⟩

/-- Adjacent differences of a constant integer column contain no nonzero
entry. -/
theorem countP_adjZ_const (g : ℤ) :
    ∀ l : List ℤ, (∀ x ∈ l, x = g) →
      (List.zipWith (fun a b => some (b - a)) l l.tail).countP neZeroOpt = 0 := by
  intro l
  induction l with
  | nil => intro _; rfl
  | cons x xs ih =>
    intro h
    cases xs with
    | nil => rfl
    | cons y ys =>
      have hx : x = g := h x (by simp)
      have hy : y = g := h y (by simp)
      have h2 : ∀ z ∈ y :: ys, z = g := fun z hz => h z (List.mem_cons_of_mem _ hz)
      have htail := ih h2
      subst hx
      subst hy
      simp only [List.tail_cons] at htail ⊢
      rw [List.zipWith_cons_cons, List.countP_cons, htail]
      simp [neZeroOpt]

/-- C2 (amended): on a nonempty constant-gear telemetry, the leading NaN
of pandas diff counts as one gear change, so whenever the elapsed time T
(seconds) is positive the function returns 60 / T shifts per minute,
which is nonzero — 0.0 is returned only when the elapsed time is zero. -/
theorem gear_shift_frequency_const_gear (r : TelemetryRow) (rest : List TelemetryRow)
    (hg : ∀ x ∈ r :: rest, x.nGear = r.nGear)
    (hT : 0 < (rest.map (fun x => x.time)).getLastD r.time - r.time) :
    calculate_gear_shift_frequency (r :: rest)
      = PFloat.val (60 / ((rest.map (fun x => x.time)).getLastD r.time - r.time)) ∧
    calculate_gear_shift_frequency (r :: rest) ≠ PFloat.val 0 := by
  have hgears : ∀ z ∈ r.nGear :: rest.map (fun x => x.nGear), z = r.nGear := by
    intro z hz
    rcases List.mem_cons.mp hz with h | h
    · exact h
    · rcases List.mem_map.mp h with ⟨y, hy, rfl⟩
      exact hg y (List.mem_cons_of_mem _ hy)
  have hcount : (diffZ (r.nGear :: rest.map (fun x => x.nGear))).countP neZeroOpt = 1 := by
    simp only [diffZ, List.countP_cons]
    rw [countP_adjZ_const r.nGear _ hgears]
    rfl
  have hmain : calculate_gear_shift_frequency (r :: rest)
      = PFloat.val (60 / ((rest.map (fun x => x.time)).getLastD r.time - r.time)) := by
    simp only [calculate_gear_shift_frequency, List.map_cons]
    rw [hcount, if_pos (div_pos hT (by norm_num))]
    rw [Nat.cast_one, one_div_div]
  refine ⟨hmain, ?_⟩
  rw [hmain]
  intro hcontra
  have h0 : (60 : ℚ) / ((rest.map (fun x => x.time)).getLastD r.time - r.time) = 0 := by
    injection hcontra
  rcases div_eq_zero_iff.mp h0 with h60 | hT0
  · norm_num at h60
  · exact absurd hT0 hT.ne'

/-- C2 counterexample: a constant-gear two-reading lap spanning one
minute yields 1.0 shift per minute, not the claimed 0.0. -/
theorem gear_shift_frequency_const_gear_nonzero_cex :
    (∀ x ∈ ([rowC2a, rowC2b] : Telemetry), x.nGear = 3) ∧
    calculate_gear_shift_frequency [rowC2a, rowC2b] = PFloat.val 1 ∧
    PFloat.val (1 : ℚ) ≠ PFloat.val 0 :=
  of_decide_eq_true (by with_unfolding_all rfl)

/-- C2 witness: the amended statement evaluated on the concrete
constant-gear lap. -/
theorem gear_shift_frequency_const_gear_witness :
    (0 : ℚ) < 60 ∧ calculate_gear_shift_frequency [rowC2a, rowC2b] = PFloat.val 1 := by
  refine ⟨by norm_num, ?_⟩
  have h := (gear_shift_frequency_const_gear rowC2a [rowC2b] (by decide)
    (of_decide_eq_true (by with_unfolding_all rfl))).1
  rw [h]
  with_unfolding_all rfl

/-- C3: a driver with laps whose fastest-lap record is an empty frame
makes get_driver_telemetry return a bare None, which the tuple unpacking
in analyze_driver_style turns into an uncaught TypeError; only the
empty-telemetry case returns None as documented. -/
theorem analyze_driver_style_empty_fastest_lap_raises :
    ([lapEmptyRec] : List Lap) ≠ [] ∧
    analyze_driver_style [lapEmptyRec] = PyAnalyze.raisesTypeError ∧
    analyze_driver_style [lapNoTel] = PyAnalyze.returnsNone :=
  ⟨by simp, rfl, rfl⟩

/-- C4 counterexample: on the synthetic 5-sample lap the code counts the
leading NaN diff as a gear change, so the frequency is not the claimed
75 shifts per minute. -/
theorem synthetic_lap_claimed_values_false :
    calculate_gear_shift_frequency tel4 ≠ PFloat.val 75 :=
  of_decide_eq_true (by with_unfolding_all rfl)

/-- C4 (amended): on the synthetic 5-sample lap, braking aggressiveness
averages the two braking diffs to the positive value 6250/8829 G;
gear-shift frequency counts 2 changes (the real shift plus the leading
NaN diff) over 0.8 s, giving 150 per minute; cornering consistency
selects speeds 95 and 90 (index 0 is excluded because its speed diff is
NaN), giving std sqrt(25/2). -/
theorem synthetic_lap_metric_values :
    calculate_braking_aggressiveness tel4 = PFloat.val (6250 / 8829) ∧
    (0 : ℚ) < 6250 / 8829 ∧
    calculate_gear_shift_frequency tel4 = PFloat.val 150 ∧
    calculate_cornering_consistency tel4 = RFloat.val (Real.sqrt (25 / 2)) := by
  refine ⟨by with_unfolding_all rfl, by norm_num, by with_unfolding_all rfl, ?_⟩
  have h1 : calculate_cornering_consistency tel4 = psqrt (PFloat.val (25 / 2)) := by
    with_unfolding_all rfl
  have h2 : psqrt (PFloat.val (25 / 2)) = RFloat.val (Real.sqrt ((25 / 2 : ℚ) : ℝ)) := by
    with_unfolding_all rfl
  rw [h1, h2]
  norm_num

open scoped Classical in
/-- Braking delta of the comparison, unfolded. -/
@[simp] theorem compare_profiles_braking_delta (d1 d2 : String) (m1 m2 : StyleMetrics) :
    (compare_profiles d1 d2 m1 m2).braking_delta
      = m1.braking_aggressiveness.sub m2.braking_aggressiveness := rfl

open scoped Classical in
/-- Throttle delta of the comparison, unfolded. -/
@[simp] theorem compare_profiles_throttle_delta (d1 d2 : String) (m1 m2 : StyleMetrics) :
    (compare_profiles d1 d2 m1 m2).throttle_delta
      = m1.throttle_smoothness.sub m2.throttle_smoothness := rfl

open scoped Classical in
/-- Cornering delta of the comparison, unfolded. -/
@[simp] theorem compare_profiles_cornering_delta (d1 d2 : String) (m1 m2 : StyleMetrics) :
    (compare_profiles d1 d2 m1 m2).cornering_delta
      = m1.cornering_consistency.sub m2.cornering_consistency := rfl

open scoped Classical in
/-- Gear delta of the comparison, unfolded. -/
@[simp] theorem compare_profiles_gear_delta (d1 d2 : String) (m1 m2 : StyleMetrics) :
    (compare_profiles d1 d2 m1 m2).gear_delta
      = m1.gear_shift_frequency.sub m2.gear_shift_frequency := rfl

open scoped Classical in
/-- Braking leader of the comparison, unfolded. -/
theorem compare_profiles_braking_leader (d1 d2 : String) (m1 m2 : StyleMetrics) :
    (compare_profiles d1 d2 m1 m2).braking_leader
      = if RFloat.ltP m2.braking_aggressiveness m1.braking_aggressiveness then d1 else d2 := rfl

open scoped Classical in
/-- Smoothness leader of the comparison, unfolded. -/
theorem compare_profiles_smooth_leader (d1 d2 : String) (m1 m2 : StyleMetrics) :
    (compare_profiles d1 d2 m1 m2).smooth_leader
      = if RFloat.ltP m1.throttle_smoothness m2.throttle_smoothness then d1 else d2 := rfl

/-- Strict order on exact real scalars, unfolded. -/
@[simp] theorem RFloat.ltP_val (a b : ℝ) :
    RFloat.ltP (RFloat.val a) (RFloat.val b) = (a < b) := rfl

/-- IEEE scalar order is irreflexive (NaN is not below itself either). -/
theorem RFloat.ltP_irrefl (x : RFloat) : ¬ RFloat.ltP x x := by
  cases x <;> simp [RFloat.ltP]

/-- Swapping the operands of IEEE subtraction negates it exactly, NaN and
infinite payloads included. -/
theorem RFloat.sub_antisymm (x y : RFloat) : y.sub x = (x.sub y).neg := by
  cases x <;> cases y <;> simp [RFloat.sub, RFloat.neg, neg_sub]

/-- C5 (amended): the four deltas of the swapped comparison are the exact
negations of the original ones for all profiles; the leader annotations
name the same driver in both orderings whenever the two metric values
are distinct real numbers — on ties (or NaN values) each ordering falls
to its own second slot, so the two orderings then disagree. -/
theorem compare_profiles_antisymm (d1 d2 : String) (m1 m2 : StyleMetrics) :
    ((compare_profiles d2 d1 m2 m1).braking_delta
        = (compare_profiles d1 d2 m1 m2).braking_delta.neg ∧
     (compare_profiles d2 d1 m2 m1).throttle_delta
        = (compare_profiles d1 d2 m1 m2).throttle_delta.neg ∧
     (compare_profiles d2 d1 m2 m1).cornering_delta
        = (compare_profiles d1 d2 m1 m2).cornering_delta.neg ∧
     (compare_profiles d2 d1 m2 m1).gear_delta
        = (compare_profiles d1 d2 m1 m2).gear_delta.neg) ∧
    (∀ a b : ℝ, m1.braking_aggressiveness = RFloat.val a →
      m2.braking_aggressiveness = RFloat.val b → a ≠ b →
      (compare_profiles d1 d2 m1 m2).braking_leader
        = (compare_profiles d2 d1 m2 m1).braking_leader) ∧
    (∀ a b : ℝ, m1.throttle_smoothness = RFloat.val a →
      m2.throttle_smoothness = RFloat.val b → a ≠ b →
      (compare_profiles d1 d2 m1 m2).smooth_leader
        = (compare_profiles d2 d1 m2 m1).smooth_leader) := by
  refine ⟨⟨RFloat.sub_antisymm _ _, RFloat.sub_antisymm _ _, RFloat.sub_antisymm _ _,
    RFloat.sub_antisymm _ _⟩, ?_, ?_⟩
  · intro a b h1 h2 hab
    rw [compare_profiles_braking_leader, compare_profiles_braking_leader, h1, h2]
    simp only [RFloat.ltP_val]
    rcases hab.lt_or_lt with h | h
    · rw [if_neg (not_lt.mpr h.le), if_pos h]
    · rw [if_pos h, if_neg (not_lt.mpr h.le)]
  · intro a b h1 h2 hab
    rw [compare_profiles_smooth_leader, compare_profiles_smooth_leader, h1, h2]
    simp only [RFloat.ltP_val]
    rcases hab.lt_or_lt with h | h
    · rw [if_pos h, if_neg (not_lt.mpr h.le)]
    · rw [if_neg (not_lt.mpr h.le), if_pos h]

/-- C5 counterexample: with equal metric values in both slots, comparing
(A, B) annotates B as braking leader while comparing (B, A) annotates A,
so the two orderings do not name the same driver. -/
theorem compare_profiles_tie_leader_swaps :
    (compare_profiles "VER" "HAM" mOnes mOnes).braking_leader = "HAM" ∧
    (compare_profiles "HAM" "VER" mOnes mOnes).braking_leader = "VER" ∧
    ("HAM" : String) ≠ "VER" := by
  refine ⟨?_, ?_, by decide⟩
  · rw [compare_profiles_braking_leader, if_neg (RFloat.ltP_irrefl _)]
  · rw [compare_profiles_braking_leader, if_neg (RFloat.ltP_irrefl _)]

/-- C5 witness: the amended leader statement evaluated on concrete
distinct profiles. -/
theorem compare_profiles_antisymm_witness :
    ((1 : ℝ) ≠ 2) ∧
    (compare_profiles "VER" "HAM" mOnes mTwos).braking_leader
      = (compare_profiles "HAM" "VER" mTwos mOnes).braking_leader :=
  ⟨by norm_num,
   (compare_profiles_antisymm "VER" "HAM" mOnes mTwos).2.1 1 2 rfl rfl (by norm_num)⟩

/-- C6 (amended): for identical profiles the leader annotations always
fall to the driver in the second slot, and when the common metric values
are real numbers every delta is exactly 0.0; identical NaN values
instead produce a NaN delta. -/
theorem compare_profiles_identical (d1 d2 : String) (m : StyleMetrics) :
    (compare_profiles d1 d2 m m).braking_leader = d2 ∧
    (compare_profiles d1 d2 m m).smooth_leader = d2 ∧
    ∀ a b c e : ℝ,
      (compare_profiles d1 d2 ⟨RFloat.val a, RFloat.val b, RFloat.val c, RFloat.val e⟩
          ⟨RFloat.val a, RFloat.val b, RFloat.val c, RFloat.val e⟩).braking_delta
        = RFloat.val 0 ∧
      (compare_profiles d1 d2 ⟨RFloat.val a, RFloat.val b, RFloat.val c, RFloat.val e⟩
          ⟨RFloat.val a, RFloat.val b, RFloat.val c, RFloat.val e⟩).throttle_delta
        = RFloat.val 0 ∧
      (compare_profiles d1 d2 ⟨RFloat.val a, RFloat.val b, RFloat.val c, RFloat.val e⟩
          ⟨RFloat.val a, RFloat.val b, RFloat.val c, RFloat.val e⟩).cornering_delta
        = RFloat.val 0 ∧
      (compare_profiles d1 d2 ⟨RFloat.val a, RFloat.val b, RFloat.val c, RFloat.val e⟩
          ⟨RFloat.val a, RFloat.val b, RFloat.val c, RFloat.val e⟩).gear_delta
        = RFloat.val 0 := by
  refine ⟨?_, ?_, ?_⟩
  · rw [compare_profiles_braking_leader, if_neg (RFloat.ltP_irrefl _)]
  · rw [compare_profiles_smooth_leader, if_neg (RFloat.ltP_irrefl _)]
  · intro a b c e
    refine ⟨?_, ?_, ?_, ?_⟩ <;> simp [RFloat.sub]

/-- C6 counterexample: a profile pair with identical NaN braking values
has a NaN braking delta, not the claimed 0.0. -/
theorem compare_profiles_nan_delta_ne_zero :
    (compare_profiles "VER" "HAM" mNaN mNaN).braking_delta = RFloat.nan ∧
    RFloat.nan ≠ RFloat.val 0 :=
  ⟨rfl, fun h => nomatch h⟩

/-- C9: the display direction table marks braking aggressiveness and
gear-shift frequency as higher-leads and throttle smoothness and
cornering consistency as lower-leads (the latter two via
delta_color="inverse"), and the two textual leader annotations follow
that convention on real-valued metrics: the strictly higher braking
value and the strictly lower smoothness value win their annotations. -/
theorem leader_direction_convention :
    (metric_direction Metric.braking_aggressiveness = Direction.higherLeads ∧
     metric_direction Metric.gear_shift_frequency = Direction.higherLeads ∧
     metric_direction Metric.throttle_smoothness = Direction.lowerLeads ∧
     metric_direction Metric.cornering_consistency = Direction.lowerLeads) ∧
    (∀ (d1 d2 : String) (m1 m2 : StyleMetrics) (a b : ℝ),
      m1.braking_aggressiveness = RFloat.val a →
      m2.braking_aggressiveness = RFloat.val b →
        ((b < a → (compare_profiles d1 d2 m1 m2).braking_leader = d1) ∧
         (a < b → (compare_profiles d1 d2 m1 m2).braking_leader = d2))) ∧
    (∀ (d1 d2 : String) (m1 m2 : StyleMetrics) (a b : ℝ),
      m1.throttle_smoothness = RFloat.val a →
      m2.throttle_smoothness = RFloat.val b →
        ((a < b → (compare_profiles d1 d2 m1 m2).smooth_leader = d1) ∧
         (b < a → (compare_profiles d1 d2 m1 m2).smooth_leader = d2))) := by
  refine ⟨⟨rfl, rfl, rfl, rfl⟩, ?_, ?_⟩
  · intro d1 d2 m1 m2 a b h1 h2
    rw [compare_profiles_braking_leader, h1, h2]
    simp only [RFloat.ltP_val]
    exact ⟨fun h => if_pos h, fun h => if_neg (not_lt.mpr h.le)⟩
  · intro d1 d2 m1 m2 a b h1 h2
    rw [compare_profiles_smooth_leader, h1, h2]
    simp only [RFloat.ltP_val]
    exact ⟨fun h => if_pos h, fun h => if_neg (not_lt.mpr h.le)⟩

/-- C9 witness: the convention evaluated on concrete profiles with
braking values 2 and 1. -/
theorem leader_direction_convention_witness :
    ((1 : ℝ) < 2) ∧ (compare_profiles "VER" "HAM" mTwos mOnes).braking_leader = "VER" :=
  ⟨by norm_num,
   (leader_direction_convention.2.1 "VER" "HAM" mTwos mOnes 2 1 rfl rfl).1 (by norm_num)⟩

/-- The absolute throttle-difference series of a nonempty telemetry is a
leading NaN followed by the exact absolute adjacent differences. -/
theorem throttle_absdiffs_cons (r : TelemetryRow) (rest : List TelemetryRow) :
    (diffQ ((r :: rest).map (fun x => x.throttle))).map PFloat.abs
      = PFloat.nan :: (throttleAbsDiffs (r :: rest)).map PFloat.val := by
  simp only [List.map_cons, diffQ, throttleAbsDiffs, List.map_map, PFloat.abs_nan]
  refine congrArg (PFloat.nan :: ·) ?_
  exact List.map_congr_left fun x _ => rfl

/-- C7 (amended): throttle smoothness is exactly the sample standard
deviation, with Bessel's correction, of the absolute first differences
of throttle whenever that series has at least two elements; when it has
fewer than two elements (laps of up to two readings) the result is NaN,
not the 0.0 the spec prescribes. -/
theorem throttle_smoothness_sample_std (t : Telemetry) :
    calculate_throttle_smoothness t =
      if (throttleAbsDiffs t).length < 2 then RFloat.nan
      else RFloat.val (Real.sqrt ((sampleVarQ (throttleAbsDiffs t) : ℚ) : ℝ)) := by
  match t with
  | [] => rfl
  | r :: rest =>
    simp only [calculate_throttle_smoothness, pstd, throttle_absdiffs_cons r rest]
    generalize throttleAbsDiffs (r :: rest) = ds
    by_cases hlen : ds.length < 2
    · have hv : pvar (PFloat.nan :: ds.map PFloat.val) = PFloat.nan := by
        simp only [pvar, dropna_nan_cons, dropna_map_val, List.length_map]
        rw [if_pos hlen]
      rw [hv, if_pos hlen]
      rfl
    · push_neg at hlen
      rw [pvar_nan_cons_vals ds hlen, if_neg (by omega)]
      have hV : sampleVarQ ds
          = ((ds.map (fun x => (x - ds.sum / ds.length) * (x - ds.sum / ds.length))).sum) /
            ((ds.length - 1 : ℕ) : ℚ) := by
        simp only [sampleVarQ]
        rw [Nat.cast_sub (by omega : 1 ≤ ds.length), Nat.cast_one]
      rw [hV]
      have hnn : 0 ≤ ((ds.map (fun x => (x - ds.sum / ds.length) * (x - ds.sum / ds.length))).sum) /
          ((ds.length - 1 : ℕ) : ℚ) := by
        apply div_nonneg
        · apply List.sum_nonneg
          intro x hx
          rcases List.mem_map.mp hx with ⟨y, _, rfl⟩
          exact mul_self_nonneg _
        · positivity
      simp only [psqrt]
      rw [if_neg (not_lt.mpr hnn)]

/-- C7 counterexample: a two-reading lap has a single absolute throttle
difference, so the code returns NaN where the claim requires 0.0. -/
theorem throttle_smoothness_two_samples_nan :
    calculate_throttle_smoothness telTwo = RFloat.nan ∧ RFloat.nan ≠ RFloat.val 0 :=
  ⟨rfl, fun h => nomatch h⟩

/-- C8 (amended): no exception escapes the metrics — in particular the
IndexError from indexing the empty Time column in gear-shift frequency
is caught and mapped to 0.0, as is the empty braking mask — but internal
degeneracies that produce NaN without raising are not mapped to 0.0:
std over fewer than two values, reached by throttle smoothness on short
laps and by cornering consistency when exactly one instant is selected,
propagates NaN to the caller. -/
theorem metrics_total_fail_soft :
    calculate_gear_shift_frequency [] = PFloat.val 0 ∧
    calculate_braking_aggressiveness [] = PFloat.val 0 ∧
    calculate_throttle_smoothness telC8 = RFloat.nan ∧
    calculate_cornering_consistency telOneCorner = RFloat.nan :=
  ⟨rfl, rfl, rfl, by with_unfolding_all rfl⟩

/-- C8 counterexample: cornering consistency on a lap whose mask selects
exactly one instant returns NaN — an internal degenerate subsequence
that is not mapped to the claimed 0.0. -/
theorem cornering_single_instant_not_zero :
    calculate_cornering_consistency telOneCorner = RFloat.nan ∧
    RFloat.nan ≠ RFloat.val 0 :=
  ⟨by with_unfolding_all rfl, fun h => nomatch h⟩

/-- C10: each metric, with the telemetry frame threaded through every
frame access, computes the same value as its plain counterpart and
returns the frame exactly as it received it: the source applies only
non-mutating pandas operations (column reads, diff, abs, comparisons,
boolean masking, std, mean, sum, iloc reads). -/
theorem metrics_preserve_telemetry (t : Telemetry) :
    calculate_braking_aggressiveness_st t = (calculate_braking_aggressiveness t, t) ∧
    calculate_throttle_smoothness_st t = (calculate_throttle_smoothness t, t) ∧
    calculate_cornering_consistency_st t = (calculate_cornering_consistency t, t) ∧
    calculate_gear_shift_frequency_st t = (calculate_gear_shift_frequency t, t) := by
  refine ⟨?_, rfl, ?_, ?_⟩
  · simp only [calculate_braking_aggressiveness_st, calculate_braking_aggressiveness, readCol]
    split <;> rfl
  · simp only [calculate_cornering_consistency_st, calculate_cornering_consistency, readCol]
    split <;> rfl
  · simp only [calculate_gear_shift_frequency_st, calculate_gear_shift_frequency, readCol]
    split
    · rfl
    · split <;> rfl
